import Mathlib

/-!
Shallow embedding of the Eltek Flatpack2 HE CAN controller (src/main.py).

Python floats are modelled as rationals, Python ints as Nat/Int with explicit
masking where the code masks.  The CAN transport is modelled by returning the
frame the code would send (arbitration id, data bytes, extended flag), and
reception by a list of incoming messages.  A Python exception that escapes a
method is modelled with Except.
-/

namespace Flatpack

/-- Python int() applied to a rational: truncation toward zero. -/
def pyInt (q : ℚ) : ℤ := if 0 ≤ q then ⌊q⌋ else -⌊-q⌋

/-- Low byte of a Python int masked with 0xFF (Python mask is nonnegative). -/
def byteLo (s : ℤ) : ℕ := (s % 256).toNat

/-- High byte: Python (s >> 8) & 0xFF, with >> the floor shift. -/
def byteHi (s : ℤ) : ℕ := (s.fdiv 256 % 256).toNat

/-- An outgoing CAN frame as the code builds it with can.Message. -/
structure Frame where
  arbitration_id : ℕ
  data : List ℕ
  is_extended_id : Bool
deriving Repr, DecidableEq

/-- An incoming CAN message as seen by read_status. -/
structure Message where
  arbitration_id : ℕ
  data : List ℕ
deriving Repr, DecidableEq

/-- The decoded telemetry dictionary returned by read_status. -/
structure StatusSample where
  temperature : ℕ
  current : ℚ
  voltage : ℚ
  power : ℚ
  input_voltage : ℕ
  walk_in : Bool
  float_mode : Bool
  error : Bool
deriving Repr, DecidableEq

/-- A Python exception escaping the decode step (IndexError on short data). -/
inductive DecodeError where
  | indexError
deriving Repr, DecidableEq

/-- EltekFlatpack class constants. -/
def MIN_VOLTAGE : ℚ := 43.5

def MAX_VOLTAGE : ℚ := 57.4

def MAX_CURRENT : ℚ := 41.7

def LOGIN_ID_BASE : ℕ := 0x05004800

def CONTROL_ID_BASE : ℕ := 0x05FF4000

def STATUS_ID_BASE : ℕ := 0x05014000

/-- The mutable attributes of an EltekFlatpack instance (bus handle aside). -/
structure State where
  unit_id : ℕ
  target_voltage : ℚ
  target_current : ℚ
  ovp_voltage : ℚ
  login : List ℕ
  login_id : ℕ
  control_id : ℕ
  status_id1 : ℕ
  status_id2 : ℕ
deriving Repr, DecidableEq

/-- The default login credential bytes used when no serial number is given. -/
def default_login : List ℕ := [0x13, 0x43, 0x72, 0x10, 0x50, 0x69, 0x00, 0x00]

/-- str(serial).zfill(12): left-pad the digit string with zeros to width 12.
The serial is modelled as its list of decimal digits. -/
def zfill12 (digits : List ℕ) : List ℕ :=
  List.replicate (12 - digits.length) 0 ++ digits

/-- [int(serial_str[i:i+2]) for i in range(0,12,2)]: each two-digit slice read
as a decimal number. -/
def pairBytes : List ℕ → List ℕ
  | a :: b :: rest => (10 * a + b) :: pairBytes rest
  | _ => []

/-- set_serial_number: zero-fill to 12 digits, reject if the result is not
12 characters long (raise ValueError), else store the six two-digit bytes
followed by two zero bytes as the login credential. -/
def set_serial_number (st : State) (serial : List ℕ) : Except Unit State :=
  let serial_str := zfill12 serial
  if serial_str.length ≠ 12 then .error ()
  else .ok { st with login := pairBytes serial_str ++ [0x00, 0x00] }

/-- EltekFlatpack.__init__ (transport setup aside): validate the unit id,
initialise setpoints, store the credential, and compute the four CAN ids. -/
def init (unit_id : ℕ) (serial_number : Option (List ℕ)) : Except Unit State :=
  if unit_id < 1 ∨ 63 < unit_id then .error ()
  else
    let st0 : State :=
      { unit_id := unit_id
        target_voltage := 48.0
        target_current := 40.0
        ovp_voltage := 59.5
        login := default_login
        login_id := LOGIN_ID_BASE + unit_id * 4
        control_id := CONTROL_ID_BASE + unit_id * 4
        status_id1 := STATUS_ID_BASE + unit_id * 4
        status_id2 := STATUS_ID_BASE + unit_id * 4 + 4 }
    match serial_number with
    | some s => set_serial_number st0 s
    | none => .ok st0

/-- The state produced by construction with unit id 1 and the default serial. -/
def defaultState : State :=
  { unit_id := 1
    target_voltage := 48.0
    target_current := 40.0
    ovp_voltage := 59.5
    login := default_login
    login_id := LOGIN_ID_BASE + 1 * 4
    control_id := CONTROL_ID_BASE + 1 * 4
    status_id1 := STATUS_ID_BASE + 1 * 4
    status_id2 := STATUS_ID_BASE + 1 * 4 + 4 }

/-- set_voltage_and_current: clamp and store any supplied setpoints, then
build the 8-byte control frame from the stored setpoints and send it on the
control id.  Returns the updated state and the frame sent. -/
def set_voltage_and_current (st : State) (volts amps ovp : Option ℚ) :
    State × Frame :=
  let st1 := match volts with
    | some v => { st with target_voltage := max MIN_VOLTAGE (min v MAX_VOLTAGE) }
    | none => st
  let st2 := match amps with
    | some a => { st1 with target_current := max 0 (min a MAX_CURRENT) }
    | none => st1
  let st3 := match ovp with
    | some o => { st2 with ovp_voltage := o }
    | none => st2
  let scaled_current := pyInt (st3.target_current * 10)
  let scaled_voltage := pyInt (st3.target_voltage * 100)
  let scaled_ovp := pyInt (st3.ovp_voltage * 100)
  let data := [byteLo scaled_current, byteHi scaled_current,
               byteLo scaled_voltage, byteHi scaled_voltage,
               byteLo scaled_voltage, byteHi scaled_voltage,
               byteLo scaled_ovp, byteHi scaled_ovp]
  (st3, { arbitration_id := st3.control_id, data := data, is_extended_id := true })

/-- set_default_voltage: clamp the voltage, scale to centivolts, and send
[0x29, 0x15, 0x00] ++ centivolts.to_bytes(2, little) on the derived id. -/
def set_default_voltage (st : State) (volts : ℚ) : Frame :=
  let v := max MIN_VOLTAGE (min volts MAX_VOLTAGE)
  let centivolts := (pyInt (v * 100)).toNat
  let default_id := Nat.lor (Nat.lor 0x05000000 (Nat.shiftLeft st.unit_id 16)) 0x9C00
  { arbitration_id := default_id
    data := [0x29, 0x15, 0x00] ++ [centivolts % 256, centivolts / 256 % 256]
    is_extended_id := true }

/-- The decode step of read_status (lines 109-120): sequential indexing into
the payload, so any payload shorter than 8 bytes fails (IndexError), modelled
by none. -/
def decode_status (d : List ℕ) : Option StatusSample := do
  let b0 ← d.get? 0
  let b1 ← d.get? 1
  let b2 ← d.get? 2
  let b3 ← d.get? 3
  let b4 ← d.get? 4
  let b5 ← d.get? 5
  let b6 ← d.get? 6
  let b7 ← d.get? 7
  let current : ℚ := ((b2 * 256 + b1 : ℕ) : ℚ) * 0.1
  let voltage : ℚ := ((b4 * 256 + b3 : ℕ) : ℚ) * 0.01
  let flags := Nat.lor b6 (Nat.shiftLeft b7 8)
  some { temperature := b0
         current := current
         voltage := voltage
         power := voltage * current
         input_voltage := b5
         walk_in := Nat.land flags 0x01 != 0
         float_mode := Nat.land flags 0x02 != 0
         error := Nat.land flags 0x04 != 0 }

/-- read_status over the list of messages received before the timeout: skip
messages whose arbitration id matches neither status id; on a matching
message decode, and an IndexError inside the decode propagates to the
caller (Except.error).  An exhausted list models the timeout (ok none). -/
def read_status (st : State) : List Message → Except DecodeError (Option StatusSample)
  | [] => .ok none
  | m :: rest =>
    if m.arbitration_id = st.status_id1 ∨ m.arbitration_id = st.status_id2 then
      match decode_status m.data with
      | some sample => .ok (some sample)
      | none => .error .indexError
    else read_status st rest

/-! ### Helper lemmas -/

/-- The two masked bytes of a value in [0, 65536) recombine to the value. -/
theorem byte_recombine (s : ℤ) (h0 : 0 ≤ s) (h1 : s < 65536) :
    (byteLo s : ℤ) + 256 * (byteHi s : ℤ) = s := by
  unfold byteLo byteHi
  rw [Int.fdiv_eq_ediv s (by norm_num)]
  rw [Int.toNat_of_nonneg (Int.emod_nonneg s (by norm_num))]
  rw [Int.toNat_of_nonneg (Int.emod_nonneg _ (by norm_num))]
  omega

/-- Rational-cast form of byte recombination, bytes read high-times-256. -/
theorem byte_recombine_cast (s : ℤ) (h0 : 0 ≤ s) (h1 : s < 65536) :
    ((byteHi s * 256 + byteLo s : ℕ) : ℚ) = (s : ℚ) := by
  have h := byte_recombine s h0 h1
  push_cast
  have hlo : ((byteLo s : ℤ) : ℚ) + 256 * ((byteHi s : ℤ) : ℚ) = ((s : ℤ) : ℚ) := by
    exact_mod_cast congrArg (fun z : ℤ => (z : ℚ)) h
  push_cast at hlo
  linarith

/-- pyInt is the floor on nonnegative rationals. -/
theorem pyInt_of_nonneg (q : ℚ) (h : 0 ≤ q) : pyInt q = ⌊q⌋ := if_pos h

/-- Truncating a current in [0, 41.7] to tenths of an amp keeps it within
0.1 A below the original. -/
theorem trunc_tenth_bounds (i : ℚ) (h0 : 0 ≤ i) (h1 : i ≤ 41.7) :
    0 ≤ pyInt (i * 10) ∧ pyInt (i * 10) < 65536 ∧
      i - 1 / 10 < ((pyInt (i * 10) : ℤ) : ℚ) * (1 / 10) ∧
      ((pyInt (i * 10) : ℤ) : ℚ) * (1 / 10) ≤ i := by
  have hnn : (0 : ℚ) ≤ i * 10 := mul_nonneg h0 (by norm_num)
  rw [pyInt_of_nonneg _ hnn]
  have hfl : (⌊i * 10⌋ : ℚ) ≤ i * 10 := Int.floor_le _
  have hfl2 : i * 10 < ⌊i * 10⌋ + 1 := Int.lt_floor_add_one _
  refine ⟨Int.floor_nonneg.mpr hnn, ?_, by linarith, by linarith⟩
  have hq : (⌊i * 10⌋ : ℚ) < 65536 := by linarith
  exact_mod_cast hq

/-- Truncating a voltage in [43.5, 57.4] to hundredths of a volt keeps it
within 0.01 V below the original. -/
theorem trunc_hundredth_bounds (v : ℚ) (h0 : 43.5 ≤ v) (h1 : v ≤ 57.4) :
    0 ≤ pyInt (v * 100) ∧ pyInt (v * 100) < 65536 ∧
      v - 1 / 100 < ((pyInt (v * 100) : ℤ) : ℚ) * (1 / 100) ∧
      ((pyInt (v * 100) : ℤ) : ℚ) * (1 / 100) ≤ v := by
  have hnn : (0 : ℚ) ≤ v * 100 := by nlinarith
  rw [pyInt_of_nonneg _ hnn]
  have hfl : (⌊v * 100⌋ : ℚ) ≤ v * 100 := Int.floor_le _
  have hfl2 : v * 100 < ⌊v * 100⌋ + 1 := Int.lt_floor_add_one _
  refine ⟨Int.floor_nonneg.mpr hnn, ?_, by linarith, by linarith⟩
  have hq : (⌊v * 100⌋ : ℚ) < 65536 := by linarith
  exact_mod_cast hq

/-- On unit addresses below 64 the bit-or composition of the default-voltage
arbitration id coincides with the arithmetic sum, the fields being
disjoint. -/
theorem lor_id_eq_add : ∀ u : ℕ, u < 64 →
    Nat.lor (Nat.lor 0x05000000 (Nat.shiftLeft u 16)) 0x9C00 =
      0x05000000 + u * 65536 + 0x9C00 := by
  decide

/-! ### Claim theorems -/

/-- C1: for every unit address u in [1,63], construction computes
login_id = 0x05004800 + u*4, control_id = 0x05FF4000 + u*4,
status_id_primary = 0x05014000 + u*4 and status_id_secondary =
status_id_primary + 4. -/
theorem c1_arbitration_ids (u : ℕ) (h1 : 1 ≤ u) (h2 : u ≤ 63) :
    ∃ st : State, init u none = .ok st ∧
      st.login_id = 0x05004800 + u * 4 ∧
      st.control_id = 0x05FF4000 + u * 4 ∧
      st.status_id1 = 0x05014000 + u * 4 ∧
      st.status_id2 = st.status_id1 + 4 := by
  unfold init
  rw [if_neg (by omega)]
  exact ⟨_, rfl, rfl, rfl, rfl, rfl⟩

/-- C1 witness: the arbitration ids at unit address 1. -/
theorem c1_arbitration_ids_witness :
    ∃ st : State, init 1 none = .ok st ∧
      st.login_id = 0x05004800 + 1 * 4 ∧
      st.control_id = 0x05FF4000 + 1 * 4 ∧
      st.status_id1 = 0x05014000 + 1 * 4 ∧
      st.status_id2 = st.status_id1 + 4 :=
  c1_arbitration_ids 1 (by decide) (by decide)

/-- The fully reduced but unevaluated form of the decode of the example
payload of §8 of the spec. -/
theorem decode_example_raw :
    decode_status [25, 0, 100, 0x88, 0x13, 230, 0x07, 0x00] =
      some { temperature := 25
             current := ((100 * 256 + 0 : ℕ) : ℚ) * 0.1
             voltage := ((19 * 256 + 136 : ℕ) : ℚ) * 0.01
             power := ((19 * 256 + 136 : ℕ) : ℚ) * 0.01 *
               (((100 * 256 + 0 : ℕ) : ℚ) * 0.1)
             input_voltage := 230
             walk_in := Nat.land (Nat.lor 7 (Nat.shiftLeft 0 8)) 0x01 != 0
             float_mode := Nat.land (Nat.lor 7 (Nat.shiftLeft 0 8)) 0x02 != 0
             error := Nat.land (Nat.lor 7 (Nat.shiftLeft 0 8)) 0x04 != 0 } :=
  rfl

/-- C3 counterexample: on the payload [25,0,100,0x88,0x13,230,0x07,0x00]
the decode step does not produce current 10.0, and does not produce
error = False: the current bytes read are data[1], data[2] = 0, 100 giving
25600 raw = 2560.0 A, and flag word 0x0007 has bit 2 set. -/
theorem c3_decode_example_counterexample :
    (decode_status [25, 0, 100, 0x88, 0x13, 230, 0x07, 0x00]).map
        StatusSample.current ≠ some 10 ∧
      (decode_status [25, 0, 100, 0x88, 0x13, 230, 0x07, 0x00]).map
        StatusSample.error ≠ some false := by
  rw [decode_example_raw]
  constructor
  · simp only [Option.map_some, ne_eq, Option.some.injEq]
    norm_num
  · simp only [Option.map_some, ne_eq, Option.some.injEq]
    decide

/-- C3 amended: decoding [25,0,100,0x88,0x13,230,0x07,0x00] yields
temperature 25, current 2560.0, voltage 50.0, power 128000.0,
input voltage 230, walk_in true, float_mode true and error true. -/
theorem c3_decode_example :
    decode_status [25, 0, 100, 0x88, 0x13, 230, 0x07, 0x00] =
      some { temperature := 25, current := 2560, voltage := 50,
             power := 128000, input_voltage := 230,
             walk_in := true, float_mode := true, error := true } := by
  rw [decode_example_raw]
  simp only [Option.some.injEq, StatusSample.mk.injEq]
  refine ⟨trivial, by norm_num, by norm_num, by norm_num, trivial, by decide, by decide, by decide⟩

/-- C10: an explicitly supplied serial 134372105069 is stored as its six
decimal two-digit bytes plus two zeros, which differ from the built-in
default credential used when no serial is supplied. -/
theorem c10_serial_vs_default :
    set_serial_number defaultState [1, 3, 4, 3, 7, 2, 1, 0, 5, 0, 6, 9] =
        .ok { defaultState with
              login := [0x0D, 0x2B, 0x48, 0x0A, 0x32, 0x45, 0x00, 0x00] } ∧
      init 1 none = .ok defaultState ∧
      defaultState.login = [0x13, 0x43, 0x72, 0x10, 0x50, 0x69, 0x00, 0x00] ∧
      ([0x0D, 0x2B, 0x48, 0x0A, 0x32, 0x45, 0x00, 0x00] : List ℕ) ≠
        [0x13, 0x43, 0x72, 0x10, 0x50, 0x69, 0x00, 0x00] :=
  ⟨rfl, rfl, rfl, by decide⟩

/-- C7 counterexample: at unit address 1 the difference control_id −
login_id is 0x00FEF800, not the claimed 0x05FA3800. -/
theorem c7_offset_counterexample :
    init 1 none = .ok defaultState ∧
      defaultState.control_id - defaultState.login_id = 0x00FEF800 ∧
      defaultState.control_id - defaultState.login_id ≠ 0x05FA3800 :=
  ⟨rfl, by decide, by decide⟩

/-- C7 amended: for every unit address in [1,63] the difference
control_id − login_id equals the constant 0x00FEF800, independent of the
unit address. -/
theorem c7_id_offset (u : ℕ) (h1 : 1 ≤ u) (h2 : u ≤ 63) :
    ∃ st : State, init u none = .ok st ∧
      st.control_id - st.login_id = 0x00FEF800 := by
  unfold init
  rw [if_neg (by omega)]
  refine ⟨_, rfl, ?_⟩
  show CONTROL_ID_BASE + u * 4 - (LOGIN_ID_BASE + u * 4) = 0x00FEF800
  unfold CONTROL_ID_BASE LOGIN_ID_BASE
  omega

/-- C7 witness: the constant offset at unit address 1. -/
theorem c7_id_offset_witness :
    ∃ st : State, init 1 none = .ok st ∧
      st.control_id - st.login_id = 0x00FEF800 :=
  c7_id_offset 1 (by decide) (by decide)

/-- C2: the control frame built from the stored setpoints is 8 bytes on the
control id: bytes 0-1 hold int(current*10) unsigned 16-bit little-endian,
bytes 2-3 and 4-5 hold two identical copies of int(voltage*100), and bytes
6-7 hold int(ovp*100), whenever each scaled value fits in 16 bits. -/
theorem c2_control_frame (st : State)
    (hc0 : 0 ≤ pyInt (st.target_current * 10))
    (hc1 : pyInt (st.target_current * 10) < 65536)
    (hv0 : 0 ≤ pyInt (st.target_voltage * 100))
    (hv1 : pyInt (st.target_voltage * 100) < 65536)
    (ho0 : 0 ≤ pyInt (st.ovp_voltage * 100))
    (ho1 : pyInt (st.ovp_voltage * 100) < 65536) :
    ∃ clo chi vlo vhi olo ohi : ℕ,
      (set_voltage_and_current st none none none).2 =
        { arbitration_id := st.control_id
          data := [clo, chi, vlo, vhi, vlo, vhi, olo, ohi]
          is_extended_id := true } ∧
      (clo : ℤ) + 256 * (chi : ℤ) = pyInt (st.target_current * 10) ∧
      (vlo : ℤ) + 256 * (vhi : ℤ) = pyInt (st.target_voltage * 100) ∧
      (olo : ℤ) + 256 * (ohi : ℤ) = pyInt (st.ovp_voltage * 100) :=
  ⟨byteLo (pyInt (st.target_current * 10)), byteHi (pyInt (st.target_current * 10)),
   byteLo (pyInt (st.target_voltage * 100)), byteHi (pyInt (st.target_voltage * 100)),
   byteLo (pyInt (st.ovp_voltage * 100)), byteHi (pyInt (st.ovp_voltage * 100)),
   rfl,
   byte_recombine _ hc0 hc1, byte_recombine _ hv0 hv1, byte_recombine _ ho0 ho1⟩

/-- C2 witness: the control frame of the freshly constructed state
(setpoints 40.0 A, 48.0 V, OVP 59.5 V). -/
theorem c2_control_frame_witness :
    ∃ clo chi vlo vhi olo ohi : ℕ,
      (set_voltage_and_current defaultState none none none).2 =
        { arbitration_id := defaultState.control_id
          data := [clo, chi, vlo, vhi, vlo, vhi, olo, ohi]
          is_extended_id := true } ∧
      (clo : ℤ) + 256 * (chi : ℤ) = pyInt (defaultState.target_current * 10) ∧
      (vlo : ℤ) + 256 * (vhi : ℤ) = pyInt (defaultState.target_voltage * 100) ∧
      (olo : ℤ) + 256 * (ohi : ℤ) = pyInt (defaultState.ovp_voltage * 100) :=
  c2_control_frame defaultState
    (by norm_num [pyInt, defaultState]) (by norm_num [pyInt, defaultState])
    (by norm_num [pyInt, defaultState]) (by norm_num [pyInt, defaultState])
    (by norm_num [pyInt, defaultState]) (by norm_num [pyInt, defaultState])

/-- C4: a supplied voltage is stored clamped into [43.5, 57.4], a supplied
current is stored clamped into [0, 41.7], a supplied OVP value is stored
exactly as given; in particular volts 100 stores 57.4, volts 0 stores 43.5,
amps -5 stores 0, and amps 999 stores 41.7. -/
theorem c4_clamping :
    (∀ (st : State) (v : ℚ),
      ((set_voltage_and_current st (some v) none none).1).target_voltage =
        max 43.5 (min v 57.4)) ∧
    (∀ (st : State) (v : ℚ),
      43.5 ≤ ((set_voltage_and_current st (some v) none none).1).target_voltage ∧
      ((set_voltage_and_current st (some v) none none).1).target_voltage ≤ 57.4) ∧
    (∀ (st : State) (a : ℚ),
      ((set_voltage_and_current st none (some a) none).1).target_current =
        max 0 (min a 41.7)) ∧
    (∀ (st : State) (a : ℚ),
      0 ≤ ((set_voltage_and_current st none (some a) none).1).target_current ∧
      ((set_voltage_and_current st none (some a) none).1).target_current ≤ 41.7) ∧
    (∀ (st : State) (o : ℚ),
      ((set_voltage_and_current st none none (some o)).1).ovp_voltage = o) ∧
    ((set_voltage_and_current defaultState (some 100) none none).1).target_voltage = 57.4 ∧
    ((set_voltage_and_current defaultState (some 0) none none).1).target_voltage = 43.5 ∧
    ((set_voltage_and_current defaultState none (some (-5)) none).1).target_current = 0 ∧
    ((set_voltage_and_current defaultState none (some 999) none).1).target_current = 41.7 := by
  refine ⟨fun st v => rfl, fun st v => ?_, fun st a => rfl, fun st a => ?_,
          fun st o => rfl, ?_, ?_, ?_, ?_⟩
  · constructor
    · show (43.5 : ℚ) ≤ max 43.5 (min v 57.4)
      exact le_max_left _ _
    · show max (43.5 : ℚ) (min v 57.4) ≤ 57.4
      exact max_le (by norm_num) (min_le_right _ _)
  · constructor
    · show (0 : ℚ) ≤ max 0 (min a 41.7)
      exact le_max_left _ _
    · show max (0 : ℚ) (min a 41.7) ≤ 41.7
      exact max_le (by norm_num) (min_le_right _ _)
  · show max (43.5 : ℚ) (min 100 57.4) = 57.4
    norm_num [min_def, max_def]
  · show max (43.5 : ℚ) (min 0 57.4) = 43.5
    norm_num [min_def, max_def]
  · show max (0 : ℚ) (min (-5) 41.7) = 0
    norm_num [min_def, max_def]
  · show max (0 : ℚ) (min 999 41.7) = 41.7
    norm_num [min_def, max_def]

/-- C5 counterexample: a status-id frame with a 6-byte payload makes
read_status return the propagated decode failure, not the
treat-as-non-matching result ok none. -/
theorem c5_short_frame_counterexample :
    read_status defaultState
        [{ arbitration_id := defaultState.status_id1,
           data := [25, 0, 100, 0x88, 0x13, 230] }] = .error .indexError ∧
      read_status defaultState
        [{ arbitration_id := defaultState.status_id1,
           data := [25, 0, 100, 0x88, 0x13, 230] }] ≠ .ok none :=
  ⟨rfl, fun h => nomatch h⟩

/-- C5 amended: decoding any payload shorter than 8 bytes fails (the code
indexes out of bounds, raising IndexError rather than MalformedFrame), and
on a matching status frame that failure propagates out of read_status to
the caller instead of being recovered locally. -/
theorem c5_short_payload (d : List ℕ) (h : d.length < 8) :
    decode_status d = none ∧
      ∀ (st : State) (rest : List Message),
        read_status st ({ arbitration_id := st.status_id1, data := d } :: rest) =
          .error .indexError := by
  have hdec : decode_status d = none := by
    rcases d with _ | ⟨b0, _ | ⟨b1, _ | ⟨b2, _ | ⟨b3, _ | ⟨b4, _ | ⟨b5, _ | ⟨b6, _ | ⟨b7, r⟩⟩⟩⟩⟩⟩⟩⟩
    all_goals first
      | rfl
      | (exfalso; simp only [List.length_cons] at h; omega)
  refine ⟨hdec, fun st rest => ?_⟩
  show (if st.status_id1 = st.status_id1 ∨ st.status_id1 = st.status_id2 then
          match decode_status d with
          | some sample => Except.ok (some sample)
          | none => Except.error DecodeError.indexError
        else read_status st rest) = Except.error DecodeError.indexError
  rw [if_pos (Or.inl rfl), hdec]

/-- C5 witness: the 6-byte payload of §8 of the spec. -/
theorem c5_short_payload_witness :
    decode_status [25, 0, 100, 0x88, 0x13, 230] = none ∧
      ∀ (st : State) (rest : List Message),
        read_status st ({ arbitration_id := st.status_id1,
                          data := [25, 0, 100, 0x88, 0x13, 230] } :: rest) =
          .error .indexError :=
  c5_short_payload [25, 0, 100, 0x88, 0x13, 230] (by decide)

/-- C6 counterexample: the 3-digit serial 123 is accepted (zero-filled to
twelve digits), although it is not exactly 12 digits long. -/
theorem c6_short_serial_counterexample :
    set_serial_number defaultState [1, 2, 3] =
        .ok { defaultState with login := [0, 0, 0, 0, 1, 23, 0, 0] } ∧
      ([1, 2, 3] : List ℕ).length ≠ 12 :=
  ⟨rfl, by decide⟩

/-- C6 amended: set_serial_number fails if and only if the serial has more
than 12 digits; a serial of at most 12 digits is zero-filled to twelve and
stored as six two-digit bytes plus two zero bytes, and on failure no state
is produced, leaving the stored credential unchanged. -/
theorem c6_serial_length (st : State) (serial : List ℕ) :
    (serial.length ≤ 12 →
      set_serial_number st serial =
        .ok { st with login := pairBytes (zfill12 serial) ++ [0x00, 0x00] }) ∧
    (12 < serial.length → set_serial_number st serial = .error ()) := by
  have hlen : (zfill12 serial).length = 12 - serial.length + serial.length := by
    simp [zfill12]
  constructor
  · intro h
    have h12 : (zfill12 serial).length = 12 := by omega
    simp only [set_serial_number]
    rw [if_neg (not_not_intro h12)]
  · intro h
    have h12 : (zfill12 serial).length ≠ 12 := by omega
    simp only [set_serial_number]
    rw [if_pos h12]

/-- C6 witness: a 3-digit serial is accepted, a 13-digit serial is
rejected. -/
theorem c6_serial_length_witness :
    set_serial_number defaultState [1, 2, 3] =
        .ok { defaultState with login := pairBytes (zfill12 [1, 2, 3]) ++ [0x00, 0x00] } ∧
      set_serial_number defaultState [9, 9, 9, 9, 9, 9, 9, 9, 9, 9, 9, 9, 9] =
        .error () :=
  ⟨(c6_serial_length defaultState [1, 2, 3]).1 (by decide),
   (c6_serial_length defaultState [9, 9, 9, 9, 9, 9, 9, 9, 9, 9, 9, 9, 9]).2 (by decide)⟩

/-- C8 counterexample: with voltage 48 V (inside [43.5, 57.4]) and current
10 A (inside [0, 41.7]), decoding the encoded control payload with
decode_status yields voltage 491.7 V and current 4915.2 A: the status-frame
field positions are shifted one byte against the control frame, so the
round trip does not stay within 0.01 V / 0.1 A. -/
theorem c8_roundtrip_counterexample :
    (43.5 : ℚ) ≤ 48 ∧ (48 : ℚ) ≤ 57.4 ∧ (0 : ℚ) ≤ 10 ∧ (10 : ℚ) ≤ 41.7 ∧
      (decode_status
          ((set_voltage_and_current defaultState (some 48) (some 10) none).2).data).map
        StatusSample.voltage = some (4917 / 10) ∧
      ¬((4917 / 10 : ℚ) - 48 ≤ 1 / 100) ∧
      (decode_status
          ((set_voltage_and_current defaultState (some 48) (some 10) none).2).data).map
        StatusSample.current = some (24576 / 5) ∧
      ¬((24576 / 5 : ℚ) - 10 ≤ 1 / 10) := by
  have e1 : max MIN_VOLTAGE (min 48 MAX_VOLTAGE) = (48 : ℚ) := by
    norm_num [MIN_VOLTAGE, MAX_VOLTAGE, min_def, max_def]
  have e2 : max 0 (min 10 MAX_CURRENT) = (10 : ℚ) := by
    norm_num [MAX_CURRENT, min_def, max_def]
  have e3 : pyInt ((10 : ℚ) * 10) = 100 := by norm_num [pyInt]
  have e4 : pyInt ((48 : ℚ) * 100) = 4800 := by norm_num [pyInt]
  have e5 : pyInt (defaultState.ovp_voltage * 100) = 5950 := by
    norm_num [pyInt, defaultState]
  have hdata : ((set_voltage_and_current defaultState (some 48) (some 10) none).2).data =
      [100, 0, 192, 18, 192, 18, 62, 23] := by
    simp only [set_voltage_and_current, e1, e2, e3, e4, e5]
    decide
  refine ⟨by norm_num, by norm_num, by norm_num, by norm_num, ?_, by norm_num, ?_, by norm_num⟩
  · rw [hdata]
    show some (((192 * 256 + 18 : ℕ) : ℚ) * 0.01) = some (4917 / 10)
    norm_num
  · rw [hdata]
    show some (((192 * 256 + 0 : ℕ) : ℚ) * 0.1) = some (24576 / 5)
    norm_num

/-- C8 amended: for voltage v in [43.5, 57.4] and current i in [0, 41.7],
reading the encoded control payload back at the control-frame positions
(bytes 0-1 as current in 0.1 A units, bytes 2-3 as voltage in 0.01 V units,
little-endian) yields values within 0.1 A of i and 0.01 V of v; decoding
with decode_status, whose status-frame layout is shifted one byte, does
not. -/
theorem c8_roundtrip (st : State) (v i : ℚ)
    (hv1 : 43.5 ≤ v) (hv2 : v ≤ 57.4) (hi1 : 0 ≤ i) (hi2 : i ≤ 41.7) :
    ∃ clo chi vlo vhi : ℕ,
      ((set_voltage_and_current st (some v) (some i) none).2).data.take 4 =
        [clo, chi, vlo, vhi] ∧
      i - 1 / 10 < ((chi * 256 + clo : ℕ) : ℚ) * 0.1 ∧
      ((chi * 256 + clo : ℕ) : ℚ) * 0.1 ≤ i ∧
      v - 1 / 100 < ((vhi * 256 + vlo : ℕ) : ℚ) * 0.01 ∧
      ((vhi * 256 + vlo : ℕ) : ℚ) * 0.01 ≤ v := by
  obtain ⟨hc0, hc1, hcl, hcu⟩ := trunc_tenth_bounds i hi1 hi2
  obtain ⟨hw0, hw1, hwl, hwu⟩ := trunc_hundredth_bounds v hv1 hv2
  have hclv : max MIN_VOLTAGE (min v MAX_VOLTAGE) = v := by
    unfold MIN_VOLTAGE MAX_VOLTAGE
    rw [min_eq_left hv2, max_eq_right hv1]
  have hcli : max 0 (min i MAX_CURRENT) = i := by
    unfold MAX_CURRENT
    rw [min_eq_left hi2, max_eq_right hi1]
  refine ⟨byteLo (pyInt (i * 10)), byteHi (pyInt (i * 10)),
          byteLo (pyInt (v * 100)), byteHi (pyInt (v * 100)), ?_, ?_, ?_, ?_, ?_⟩
  · simp only [set_voltage_and_current]
    rw [hclv, hcli]
    rfl
  · rw [byte_recombine_cast _ hc0 hc1,
        show (0.1 : ℚ) = 1 / 10 from by norm_num]
    exact hcl
  · rw [byte_recombine_cast _ hc0 hc1,
        show (0.1 : ℚ) = 1 / 10 from by norm_num]
    exact hcu
  · rw [byte_recombine_cast _ hw0 hw1,
        show (0.01 : ℚ) = 1 / 100 from by norm_num]
    exact hwl
  · rw [byte_recombine_cast _ hw0 hw1,
        show (0.01 : ℚ) = 1 / 100 from by norm_num]
    exact hwu

/-- C8 witness: the fixed-point round trip at 48.5 V and 10 A. -/
theorem c8_roundtrip_witness :
    ∃ clo chi vlo vhi : ℕ,
      ((set_voltage_and_current defaultState (some 48.5) (some 10) none).2).data.take 4 =
        [clo, chi, vlo, vhi] ∧
      (10 : ℚ) - 1 / 10 < ((chi * 256 + clo : ℕ) : ℚ) * 0.1 ∧
      ((chi * 256 + clo : ℕ) : ℚ) * 0.1 ≤ 10 ∧
      (48.5 : ℚ) - 1 / 100 < ((vhi * 256 + vlo : ℕ) : ℚ) * 0.01 ∧
      ((vhi * 256 + vlo : ℕ) : ℚ) * 0.01 ≤ 48.5 :=
  c8_roundtrip defaultState 48.5 10 (by norm_num) (by norm_num)
    (by norm_num) (by norm_num)

/-- C9: set_default_voltage clamps the voltage into [43.5, 57.4], scales it
to centivolts c, and sends the 5-byte payload [0x29, 0x15, 0x00, c lo byte,
c hi byte] under the extended arbitration id built by or-ing 0x05000000,
unit_id shifted left 16, and 0x9C00; for unit address 1 that id is
0x05019C00, and for any unit address up to 63 it equals the arithmetic sum
of the three fields. -/
theorem c9_default_voltage (st : State) (volts : ℚ) :
    ∃ c : ℕ,
      c = (pyInt (max 43.5 (min volts 57.4) * 100)).toNat ∧
      set_default_voltage st volts =
        { arbitration_id :=
            Nat.lor (Nat.lor 0x05000000 (Nat.shiftLeft st.unit_id 16)) 0x9C00
          data := [0x29, 0x15, 0x00, c % 256, c / 256]
          is_extended_id := true } ∧
      4350 ≤ c ∧ c ≤ 5740 ∧
      c % 256 + 256 * (c / 256) = c ∧
      (st.unit_id = 1 →
        (set_default_voltage st volts).arbitration_id = 0x05019C00) ∧
      (st.unit_id ≤ 63 →
        (set_default_voltage st volts).arbitration_id =
          0x05000000 + st.unit_id * 65536 + 0x9C00) := by
  have hvl : (43.5 : ℚ) ≤ max 43.5 (min volts 57.4) := le_max_left _ _
  have hvu : max (43.5 : ℚ) (min volts 57.4) ≤ 57.4 :=
    max_le (by norm_num) (min_le_right _ _)
  have hnn : (0 : ℚ) ≤ max 43.5 (min volts 57.4) * 100 := by nlinarith
  have hfl : (⌊max (43.5 : ℚ) (min volts 57.4) * 100⌋ : ℚ) ≤
      max 43.5 (min volts 57.4) * 100 := Int.floor_le _
  have hzl : (4350 : ℤ) ≤ ⌊max (43.5 : ℚ) (min volts 57.4) * 100⌋ := by
    rw [Int.le_floor]
    push_cast
    linarith
  have hzu : ⌊max (43.5 : ℚ) (min volts 57.4) * 100⌋ ≤ 5740 := by
    have hq : (⌊max (43.5 : ℚ) (min volts 57.4) * 100⌋ : ℚ) ≤ 5740 := by linarith
    exact_mod_cast hq
  have hpy : pyInt (max 43.5 (min volts 57.4) * 100) =
      ⌊max (43.5 : ℚ) (min volts 57.4) * 100⌋ := pyInt_of_nonneg _ hnn
  refine ⟨(pyInt (max 43.5 (min volts 57.4) * 100)).toNat, rfl, ?_, ?_, ?_, ?_, ?_, ?_⟩
  · have hcu : (pyInt (max (43.5 : ℚ) (min volts 57.4) * 100)).toNat ≤ 5740 := by
      rw [hpy]; omega
    have h256 : (pyInt (max (43.5 : ℚ) (min volts 57.4) * 100)).toNat / 256 % 256 =
        (pyInt (max (43.5 : ℚ) (min volts 57.4) * 100)).toNat / 256 := by omega
    simp only [set_default_voltage]
    rw [show max MIN_VOLTAGE (min volts MAX_VOLTAGE) =
          max (43.5 : ℚ) (min volts 57.4) from rfl, h256]
    rfl
  · rw [hpy]; omega
  · rw [hpy]; omega
  · rw [hpy]; omega
  · intro h1
    show Nat.lor (Nat.lor 0x05000000 (Nat.shiftLeft st.unit_id 16)) 0x9C00 = 0x05019C00
    rw [h1]
    decide
  · intro h63
    show Nat.lor (Nat.lor 0x05000000 (Nat.shiftLeft st.unit_id 16)) 0x9C00 =
      0x05000000 + st.unit_id * 65536 + 0x9C00
    exact lor_id_eq_add st.unit_id (by omega)

/-- C9 witness: the default-voltage frame at unit address 1 and 48.5 V. -/
theorem c9_default_voltage_witness :
    ∃ c : ℕ,
      c = (pyInt (max 43.5 (min 48.5 57.4) * 100)).toNat ∧
      set_default_voltage defaultState 48.5 =
        { arbitration_id :=
            Nat.lor (Nat.lor 0x05000000 (Nat.shiftLeft defaultState.unit_id 16)) 0x9C00
          data := [0x29, 0x15, 0x00, c % 256, c / 256]
          is_extended_id := true } ∧
      4350 ≤ c ∧ c ≤ 5740 ∧
      c % 256 + 256 * (c / 256) = c ∧
      (defaultState.unit_id = 1 →
        (set_default_voltage defaultState 48.5).arbitration_id = 0x05019C00) ∧
      (defaultState.unit_id ≤ 63 →
        (set_default_voltage defaultState 48.5).arbitration_id =
          0x05000000 + defaultState.unit_id * 65536 + 0x9C00) :=
  c9_default_voltage defaultState 48.5

end Flatpack
